import Mathlib

/-!
# Verification of the CCPM fuzzy c-means clustering engine and I/O helpers

Shallow embedding of `CCPM/clustering/cluster.py`, `CCPM/io/utils.py` and
`CCPM/io/viz.py`.

Modelling choices:
* numpy 2-d float arrays of shape (r, k) become functions `Fin r → Fin k → ℝ`;
  elementwise `**` with a float exponent becomes `Real.rpow`, `np.fmax` becomes
  `max`, `np.finfo(np.float64).eps` becomes the exact rational `2 ^ (-52)`.
* `compute_distance` lives in `CCPM/clustering/distance.py`, which is not part
  of the sources at hand; it is kept as an abstract parameter
  `D : String → Mat N S → Mat c S → Mat c N` (metric name, data, centers).
* Python's `UnboundLocalError` (reading a variable that was never assigned)
  is modelled by `Option`: a function that would raise returns `none`.
* the in-place mutation `u_old /= ...` performed by `cmeans0` on its caller's
  array (the copy `u2`) is modelled by returning the mutated array
  (`uOldMut`) explicitly; the caller's stopping rule reads it.
* `np.random.rand(c, n)` is modelled by an explicit argument `u0rand` holding
  the drawn matrix; `seed` only influences that draw and is dropped.
-/

namespace CCPM

noncomputable section

/-- A numpy 2-d float array of shape (r, k). -/
abbrev Mat (r k : ℕ) := Fin r → Fin k → ℝ

/-- `np.finfo(np.float64).eps = 2 ** (-52)`. -/
def eps64 : ℝ := 1 / 2 ^ 52

/-- Matrix product `A.dot(B)`. -/
def dotM {a b e : ℕ} (A : Mat a b) (B : Mat b e) : Mat a e :=
  fun i k => ∑ j, A i j * B j k

/-- `A.T`. -/
def transposeM {a b : ℕ} (A : Mat a b) : Mat b a := fun i j => A j i

/-- `np.trace A`. -/
def traceM {a : ℕ} (A : Mat a a) : ℝ := ∑ i, A i i

/-- `A.sum(axis=0) j`, the sum of column `j`. -/
def colSum {a b : ℕ} (A : Mat a b) (j : Fin b) : ℝ := ∑ i, A i j

/-- `A.sum(axis=1) i`, the sum of row `i`. -/
def rowSum {a b : ℕ} (A : Mat a b) (i : Fin a) : ℝ := ∑ j, A i j

/-- `A /= np.ones((a, 1)).dot(np.atleast_2d(A.sum(axis=0)))`: divide every
entry by the sum of its column. -/
def colNormalize {a b : ℕ} (A : Mat a b) : Mat a b :=
  fun i j => A i j / colSum A j

/-- `np.fmax(A, x)`: clamp every entry from below by `x`. -/
def clampBelow {a b : ℕ} (A : Mat a b) (x : ℝ) : Mat a b :=
  fun i j => max (A i j) x

/-- `np.linalg.norm A`, the Frobenius norm. -/
def frobNorm {a b : ℕ} (A : Mat a b) : ℝ :=
  Real.sqrt (∑ i, ∑ j, A i j ^ (2 : ℕ))

/-- The type of `compute_distance` from `CCPM/clustering/distance.py` (not in
the sources at hand): metric name, data of shape (N, S), centers of shape
(c, S), giving distances of shape (c, N). -/
def DistFn (S N c : ℕ) : Type :=
  String → Mat N S → Mat c S → Mat c N

/-- The four values returned by `cmeans0`, together with the final state
`uOldMut` of the caller's array `u_old` after the in-place division
`u_old /= ...` (numpy augmented assignment mutates the array). -/
@[ext]
structure Step0Result (S N c : ℕ) where
  cntr : Mat c S
  u : Mat c N
  jm : ℝ
  d : Mat c N
  uOldMut : Mat c N

/-- `cmeans0(data, u_old, c, m, metric)`: single step in the fuzzy c-means
clustering algorithm (`CCPM/clustering/cluster.py`).  `c` is carried by the
shape of `u_old`. -/
def cmeans0 {S N c : ℕ} (D : DistFn S N c) (data : Mat S N) (u_old : Mat c N)
    (m : ℝ) (metric : String := "euclidean") : Step0Result S N c :=
  let uNorm := colNormalize u_old
  let uClamped := clampBelow uNorm eps64
  let um : Mat c N := fun i j => uClamped i j ^ m
  let dataT := transposeM data
  let cntr : Mat c S := fun i s => dotM um dataT i s / rowSum um i
  let d := clampBelow (D metric dataT cntr) eps64
  let jm := ∑ i, ∑ j, um i j * d i j ^ (2 : ℕ)
  let uNew := colNormalize (fun i j => d i j ^ (-2 / (m - 1) : ℝ))
  ⟨cntr, uNew, jm, d, uNorm⟩

/-- `fp_coeff(u) = np.trace(u.dot(u.T)) / float(n)` with `n = u.shape[1]`. -/
def fp_coeff {N c : ℕ} (u : Mat c N) : ℝ :=
  traceM (dotM u (transposeM u)) / (N : ℝ)

/-- Loop state of the main `cmeans` loop: the current membership matrix `u`,
the objective history `jm`, the iteration counter `p`, and the values of the
loop-local variables `cntr`, `u2` (after its in-place mutation) and `d` from
the most recent iteration — `none` when the loop body never ran, in which
case reading them raises `UnboundLocalError`. -/
structure CMeansState (S N c : ℕ) where
  u : Mat c N
  jm : List ℝ
  p : ℕ
  last : Option (Mat c S × Mat c N × Mat c N)

/-- The seven values returned by `cmeans`. -/
@[ext]
structure CMeansResult (S N c : ℕ) where
  cntr : Mat c S
  u : Mat c N
  u0 : Mat c N
  d : Mat c N
  jm : List ℝ
  p : ℕ
  fpc : ℝ

/-- The main `cmeans` loop, `while p < maxiter - 1: ...`, run with the given
fuel (`maxiter - 1 - p` at entry). -/
def cmeansLoop {S N c : ℕ} (D : DistFn S N c) (data : Mat S N)
    (m error : ℝ) (metric : String) :
    ℕ → CMeansState S N c → CMeansState S N c
  | 0, s => s
  | fuel + 1, s =>
    let r := cmeans0 D data s.u m metric
    let s' : CMeansState S N c :=
      ⟨r.u, s.jm ++ [r.jm], s.p + 1, some (r.cntr, r.uOldMut, r.d)⟩
    if frobNorm (r.u - r.uOldMut) < error then s'
    else cmeansLoop D data m error metric fuel s'

/-- `cmeans(data, c, m, error, maxiter, metric, init, seed)` from
`CCPM/clustering/cluster.py`.  `u0rand` stands for the matrix
`np.random.rand(c, n)` drawn when `init is None`; `metric` is placed last
here so its default value can be written.  The result is `none` exactly
when the loop body never ran, in which case the final statements read the
unassigned locals `cntr`, `d` and `u2` and raise `UnboundLocalError`. -/
def cmeans {S N c : ℕ} (D : DistFn S N c) (data : Mat S N) (m error : ℝ)
    (maxiter : ℕ) (init : Option (Mat c N)) (u0rand : Mat c N)
    (metric : String := "euclidean") : Option (CMeansResult S N c) :=
  let u0 : Mat c N := init.getD (colNormalize u0rand)
  let u := clampBelow u0 eps64
  let s := cmeansLoop D data m error metric (maxiter - 1) ⟨u, [], 0, none⟩
  s.last.map (fun l => ⟨l.1, s.u, u0, l.2.2, s.jm, s.p, fp_coeff s.u⟩)

/-- The values returned by `cmeans_predict0`, together with the mutated
`u_old` array and the value of the `cntr` array after the call (`cntrOut`):
the body never assigns to `cntr`, so it is passed through unchanged. -/
@[ext]
structure Predict0Result (S N c : ℕ) where
  u : Mat c N
  jm : ℝ
  d : Mat c N
  uOldMut : Mat c N
  cntrOut : Mat c S

/-- `cmeans_predict0(test_data, cntr, u_old, c, m, metric)`: single step in
the fuzzy c-means prediction algorithm.  Cluster centers are not
recalculated. -/
def cmeans_predict0 {S N c : ℕ} (D : DistFn S N c) (test_data : Mat S N)
    (cntr : Mat c S) (u_old : Mat c N) (m : ℝ)
    (metric : String := "euclidean") : Predict0Result S N c :=
  let uNorm := colNormalize u_old
  let uClamped := clampBelow uNorm eps64
  let um : Mat c N := fun i j => uClamped i j ^ m
  let dataT := transposeM test_data
  let d := clampBelow (D metric dataT cntr) eps64
  let jm := ∑ i, ∑ j, um i j * d i j ^ (2 : ℕ)
  let uNew := colNormalize (fun i j => d i j ^ (-2 / (m - 1) : ℝ))
  ⟨uNew, jm, d, uNorm, cntr⟩

/-- Loop state of the `cmeans_predict` loop.  `cntrCur` tracks the
`cntr_trained` array across iterations; `last` holds the loop-local
variables `u2` (after mutation) and `d` of the most recent iteration. -/
structure PredictState (S N c : ℕ) where
  u : Mat c N
  jm : List ℝ
  p : ℕ
  cntrCur : Mat c S
  last : Option (Mat c N × Mat c N)

/-- The six values returned by `cmeans_predict`. -/
@[ext]
structure PredictResult (S N c : ℕ) where
  u : Mat c N
  u0 : Mat c N
  d : Mat c N
  jm : List ℝ
  p : ℕ
  fpc : ℝ

/-- The main `cmeans_predict` loop, `while p < maxiter - 1: ...`. -/
def predictLoop {S N c : ℕ} (D : DistFn S N c) (test_data : Mat S N)
    (m error : ℝ) (metric : String) :
    ℕ → PredictState S N c → PredictState S N c
  | 0, s => s
  | fuel + 1, s =>
    let r := cmeans_predict0 D test_data s.cntrCur s.u m metric
    let s' : PredictState S N c :=
      ⟨r.u, s.jm ++ [r.jm], s.p + 1, r.cntrOut, some (r.uOldMut, r.d)⟩
    if frobNorm (r.u - r.uOldMut) < error then s'
    else predictLoop D test_data m error metric fuel s'

/-- `cmeans_predict(test_data, cntr_trained, m, error, maxiter, metric, init,
seed)` from `CCPM/clustering/cluster.py`.  The result is `none` exactly when
the loop body never ran (reading the unassigned locals `d` and `u2` raises
`UnboundLocalError`). -/
def cmeans_predict {S N c : ℕ} (D : DistFn S N c) (test_data : Mat S N)
    (cntr_trained : Mat c S) (m error : ℝ) (maxiter : ℕ)
    (init : Option (Mat c N)) (u0rand : Mat c N)
    (metric : String := "euclidean") : Option (PredictResult S N c) :=
  let u0 : Mat c N := init.getD (colNormalize u0rand)
  let u := clampBelow u0 eps64
  let s := predictLoop D test_data m error metric (maxiter - 1)
    ⟨u, [], 0, cntr_trained, none⟩
  s.last.map (fun l => ⟨s.u, u0, l.2, s.jm, s.p, fp_coeff s.u⟩)

end

/-!
## `CCPM/io/utils.py`: file loading and output-directory validation

External library calls (`pd.read_csv`, `pd.read_excel`,
`detect_delimiter.detect`) are kept abstract, bundled in `LoadCalls`; the
actual file system is modelled by `DirState` per path.
-/

/-- `os.path.splitext(p)[1]` on a POSIX path: the extension is the suffix
starting at the last dot of the basename, provided some earlier character of
the basename is not a dot (leading dots never start an extension). -/
def splitextExt (p : String) : String :=
  let revBase : List Char := p.toList.reverse.takeWhile (fun ch => ch ≠ '/')
  match revBase.findIdx? (fun ch => ch = '.') with
  | none => ""
  | some i =>
      if (revBase.drop (i + 1)).any (fun ch => ch ≠ '.') then
        String.mk ((revBase.take (i + 1)).reverse)
      else ""

/-- The external calls made by `load_df_in_any_format`: `pd.read_csv(file)`,
`pd.read_excel(file)`, `pd.read_csv(file, sep=delim)` and
`detect_delimiter.detect(content, whitelist)` (which may return `None`). -/
structure LoadCalls (DF : Type) where
  readCsv : String → DF
  readExcel : String → DF
  readCsvSep : String → Option String → DF
  detect : String → List String → Option String

/-- The whitelist passed to `detect` for `.txt` files. -/
def txtWhitelist : List String := ["\t", ":", ";", " ", ","]

/-- `load_df_in_any_format(file)` from `CCPM/io/utils.py`; `content` is what
`open(file).read()` returns.  The local `df` is assigned only in the three
recognized branches; returning it unassigned raises
`UnboundLocalError`, modelled by `none`. -/
def load_df_in_any_format {DF : Type} (calls : LoadCalls DF)
    (content : String) (file : String) : Option DF :=
  let ext := splitextExt file
  let df0 : Option DF := none
  let df1 := if ext = ".csv" then some (calls.readCsv file) else df0
  let df2 := if ext = ".xlsx" then some (calls.readExcel file) else df1
  let df3 :=
    if ext = ".txt" then
      some (calls.readCsvSep file (calls.detect content txtWhitelist))
    else df2
  df3

/-- State of one output directory path: absent, or present with the names
`os.listdir` returns. -/
inductive DirState : Type
  | absent : DirState
  | present : List String → DirState
deriving DecidableEq

/-- The inner `check(path)` closure of `assert_output_dir_exist`:
`Except.error msg` models `sys.exit(msg)`.  A missing directory is created
by `os.makedirs` when `create_dir` holds (it is then empty, so the
`os.listdir(path)` test passes); a non-empty directory is either rejected or
— under `overwrite` — has every file unlinked and every subdirectory
removed by `shutil.rmtree`. -/
def checkDir (overwrite create_dir : Bool) (s : DirState) :
    Except String DirState :=
  let step1 : Except String DirState :=
    match s with
    | .absent =>
        if !create_dir then
          .error "Output directory does not exist. Use create_dir = True."
        else .ok (.present [])
    | .present es => .ok (.present es)
  match step1 with
  | .error e => .error e
  | .ok (.present es) =>
      if es ≠ [] then
        if !overwrite then
          .error
            "Output directory is not empty. Use -f to overwrite the existing content."
        else .ok (.present [])
      else .ok (.present es)
  | .ok .absent => .ok .absent

/-- Run `check` over a list of paths in order, threading the file-system
state (a map from path to `DirState`); the first `sys.exit` aborts. -/
def checkDirs (overwrite create_dir : Bool) :
    List String → (String → DirState) → Except String (String → DirState)
  | [], fs => .ok fs
  | p :: ps, fs =>
      match checkDir overwrite create_dir (fs p) with
      | .error e => .error e
      | .ok s' =>
          checkDirs overwrite create_dir ps
            (fun q => if q = p then s' else fs q)

/-- `assert_output_dir_exist(overwrite, required, optional, create_dir)`
from `CCPM/io/utils.py`: validates each required path and each truthy
(non-empty) optional path. -/
def assert_output_dir_exist (overwrite : Bool) (required : List String)
    (optional : List String) (create_dir : Bool)
    (fs : String → DirState) : Except String (String → DirState) :=
  match checkDirs overwrite create_dir required fs with
  | .error e => .error e
  | .ok fs' =>
      checkDirs overwrite create_dir
        (optional.filter (fun s => s ≠ "")) fs'

/-!
## `CCPM/io/viz.py`: grid layout of `flexible_barplot`
-/

/-- `determine_layout(nb_axes)` from `flexible_barplot`:
`num_rows = int(np.sqrt(nb_axes))` and
`num_cols = int(np.ceil(nb_axes / num_rows))`. -/
def determine_layout (nb_axes : ℕ) : ℕ × ℕ :=
  let num_rows := Nat.sqrt nb_axes
  let num_cols := (nb_axes + num_rows - 1) / num_rows
  (num_rows, num_cols)

/-- The `for i, ax in enumerate(axes.flat)` loop of `flexible_barplot` over
the grid returned by `plt.subplots(nrows=num_rows, ncols=num_cols)`: index
`i` of the grid gets a bar plot when `i < num_axes` (`true`) and is turned
off otherwise (`false`).  With matplotlib's default `squeeze=True`, a 1×1
layout makes `plt.subplots` return a bare `Axes` object, which has no
`.flat` attribute, so the loop raises `AttributeError` before any plot is
drawn — modelled by `none`; for any other layout `axes` is a numpy array
(1-d or 2-d) of `num_rows * num_cols` axes and `.flat` iterates them all. -/
def flexible_barplot_axes (num_axes : ℕ) : Option (List Bool) :=
  let rc := determine_layout num_axes
  if rc.1 = 1 ∧ rc.2 = 1 then none
  else some ((List.range (rc.1 * rc.2)).map (fun i => decide (i < num_axes)))

noncomputable section

/-- The single training step as the specification words it: column-normalize
`u_old` and clamp it below by machine epsilon; centers are `u_old ** m`
dotted with the transposed data, divided row-wise by the row sums of
`u_old ** m`; the distance matrix of the data to the centers is clamped
below by machine epsilon; the objective value is
`sum(u_old ** m * d ** 2)`; the new membership matrix is proportional to
`d ** (-2 / (m - 1))` with every column normalized to sum to 1.  Returned
as (centers, memberships, objective, distances). -/
def cmeans0_spec {S N c : ℕ} (D : DistFn S N c) (data : Mat S N)
    (u_old : Mat c N) (m : ℝ) (metric : String) :
    Mat c S × Mat c N × ℝ × Mat c N :=
  let uN : Mat c N := fun i j => max (u_old i j / ∑ k, u_old k j) eps64
  let um : Mat c N := fun i j => uN i j ^ m
  let cntr : Mat c S := fun i s => (∑ j, um i j * data s j) / ∑ j, um i j
  let d : Mat c N := fun i j =>
    max (D metric (fun t f => data f t) cntr i j) eps64
  let jm : ℝ := ∑ i, ∑ j, um i j * d i j ^ (2 : ℕ)
  let u : Mat c N := fun i j =>
    d i j ^ (-2 / (m - 1) : ℝ) / ∑ k, d k j ^ (-2 / (m - 1) : ℝ)
  (cntr, u, jm, d)

/-- A concrete distance function on 1×1 data: always 0. -/
def trivD : DistFn 1 1 1 := fun _ _ _ => fun _ _ => 0

/-- A concrete distance function agreeing with `trivD` on the metric
`"euclidean"` and differing elsewhere. -/
def trivD2 : DistFn 1 1 1 := fun s _ _ =>
  if s = "euclidean" then (fun _ _ => 0) else (fun _ _ => 1)

/-- The 1×1 all-ones matrix. -/
def one1 : Mat 1 1 := fun _ _ => 1

/-- The 1×1 zero matrix. -/
def zero1 : Mat 1 1 := fun _ _ => 0

/-- The 1×1 matrix holding machine epsilon. -/
def epsM : Mat 1 1 := fun _ _ => eps64

end

/-- Concrete external calls for exercising `load_df_in_any_format`, with
dataframes represented by natural-number tags. -/
def callsNat : LoadCalls ℕ where
  readCsv := fun _ => 0
  readExcel := fun _ => 1
  readCsvSep := fun _ _ => 2
  detect := fun _ _ => none

/-!
## Basic lemmas
-/

lemma eps64_pos : 0 < eps64 := by norm_num [eps64]

lemma eps64_le_one : eps64 ≤ 1 := by norm_num [eps64]

lemma frobNorm_nonneg {a b : ℕ} (A : Mat a b) : 0 ≤ frobNorm A :=
  Real.sqrt_nonneg _

lemma clampBelow_pos {a b : ℕ} (A : Mat a b) (i : Fin a) (j : Fin b) :
    0 < clampBelow A eps64 i j :=
  lt_of_lt_of_le eps64_pos (le_max_right _ _)

lemma colSum_colNormalize_eq_one {a b : ℕ} (ha : 0 < a) (A : Mat a b)
    (j : Fin b) (h : ∀ i, 0 < A i j) : colSum (colNormalize A) j = 1 := by
  have : Nonempty (Fin a) := Fin.pos_iff_nonempty.mp ha
  have hT : 0 < colSum A j :=
    Finset.sum_pos (fun i _ => h i) Finset.univ_nonempty
  unfold colSum colNormalize colSum
  rw [← Finset.sum_div]
  exact div_self (ne_of_gt hT)

lemma cmeans0_colSum_u {S N c : ℕ} (hc : 0 < c) (D : DistFn S N c)
    (data : Mat S N) (u_old : Mat c N) (m : ℝ) (metric : String)
    (j : Fin N) : colSum (cmeans0 D data u_old m metric).u j = 1 := by
  refine colSum_colNormalize_eq_one hc _ j fun i => ?_
  exact Real.rpow_pos_of_pos (clampBelow_pos _ _ _) _

lemma cmeans_predict0_colSum_u {S N c : ℕ} (hc : 0 < c) (D : DistFn S N c)
    (test_data : Mat S N) (cntr : Mat c S) (u_old : Mat c N) (m : ℝ)
    (metric : String) (j : Fin N) :
    colSum (cmeans_predict0 D test_data cntr u_old m metric).u j = 1 := by
  refine colSum_colNormalize_eq_one hc _ j fun i => ?_
  exact Real.rpow_pos_of_pos (clampBelow_pos _ _ _) _

/-!
## Lemmas about the main loops
-/

lemma cmeansLoop_u_shape {S N c : ℕ} (D : DistFn S N c) (data : Mat S N)
    (m error : ℝ) (metric : String) :
    ∀ fuel (s : CMeansState S N c), 1 ≤ fuel →
      ∃ w, (cmeansLoop D data m error metric fuel s).u =
        (cmeans0 D data w m metric).u := by
  intro fuel
  induction fuel with
  | zero => intro s h; omega
  | succ n ih =>
    intro s _
    simp only [cmeansLoop]
    split
    · exact ⟨s.u, rfl⟩
    · cases n with
      | zero => exact ⟨s.u, rfl⟩
      | succ k => exact ih _ (by omega)

lemma predictLoop_u_shape {S N c : ℕ} (D : DistFn S N c) (test_data : Mat S N)
    (m error : ℝ) (metric : String) :
    ∀ fuel (s : PredictState S N c), 1 ≤ fuel →
      ∃ ct w, (predictLoop D test_data m error metric fuel s).u =
        (cmeans_predict0 D test_data ct w m metric).u := by
  intro fuel
  induction fuel with
  | zero => intro s h; omega
  | succ n ih =>
    intro s _
    simp only [predictLoop]
    split
    · exact ⟨s.cntrCur, s.u, rfl⟩
    · cases n with
      | zero => exact ⟨s.cntrCur, s.u, rfl⟩
      | succ k => exact ih _ (by omega)

lemma cmeansLoop_no_stop {S N c : ℕ} (D : DistFn S N c) (data : Mat S N)
    (m error : ℝ) (metric : String) (herr : error ≤ 0) :
    ∀ fuel (s : CMeansState S N c),
      (cmeansLoop D data m error metric fuel s).p = s.p + fuel ∧
      (cmeansLoop D data m error metric fuel s).jm.length =
        s.jm.length + fuel ∧
      (1 ≤ fuel →
        ((cmeansLoop D data m error metric fuel s).last).isSome = true) := by
  intro fuel
  induction fuel with
  | zero => intro s; refine ⟨rfl, rfl, by omega⟩
  | succ n ih =>
    intro s
    have hno : ¬ frobNorm ((cmeans0 D data s.u m metric).u -
        (cmeans0 D data s.u m metric).uOldMut) < error :=
      not_lt.mpr (le_trans herr (frobNorm_nonneg _))
    simp only [cmeansLoop, if_neg hno]
    cases n with
    | zero =>
      refine ⟨rfl, ?_, fun _ => rfl⟩
      simp [cmeansLoop]
    | succ k =>
      obtain ⟨hp, hl, hs⟩ := ih
        ⟨(cmeans0 D data s.u m metric).u, s.jm ++ [(cmeans0 D data s.u m metric).jm],
          s.p + 1, some ((cmeans0 D data s.u m metric).cntr,
            (cmeans0 D data s.u m metric).uOldMut, (cmeans0 D data s.u m metric).d)⟩
      refine ⟨?_, ?_, fun _ => hs (by omega)⟩
      · rw [hp]
        show s.p + 1 + (k + 1) = s.p + (k + 1 + 1)
        omega
      · rw [hl]
        show (s.jm ++ [(cmeans0 D data s.u m metric).jm]).length + (k + 1) =
          s.jm.length + (k + 1 + 1)
        simp [List.length_append]
        omega

lemma predictLoop_no_stop {S N c : ℕ} (D : DistFn S N c) (test_data : Mat S N)
    (m error : ℝ) (metric : String) (herr : error ≤ 0) :
    ∀ fuel (s : PredictState S N c),
      (predictLoop D test_data m error metric fuel s).p = s.p + fuel ∧
      (predictLoop D test_data m error metric fuel s).jm.length =
        s.jm.length + fuel ∧
      (1 ≤ fuel →
        ((predictLoop D test_data m error metric fuel s).last).isSome = true) := by
  intro fuel
  induction fuel with
  | zero => intro s; refine ⟨rfl, rfl, by omega⟩
  | succ n ih =>
    intro s
    have hno : ¬ frobNorm ((cmeans_predict0 D test_data s.cntrCur s.u m metric).u -
        (cmeans_predict0 D test_data s.cntrCur s.u m metric).uOldMut) < error :=
      not_lt.mpr (le_trans herr (frobNorm_nonneg _))
    simp only [predictLoop, if_neg hno]
    cases n with
    | zero =>
      refine ⟨rfl, ?_, fun _ => rfl⟩
      simp [predictLoop]
    | succ k =>
      obtain ⟨hp, hl, hs⟩ := ih
        ⟨(cmeans_predict0 D test_data s.cntrCur s.u m metric).u,
          s.jm ++ [(cmeans_predict0 D test_data s.cntrCur s.u m metric).jm],
          s.p + 1, (cmeans_predict0 D test_data s.cntrCur s.u m metric).cntrOut,
          some ((cmeans_predict0 D test_data s.cntrCur s.u m metric).uOldMut,
            (cmeans_predict0 D test_data s.cntrCur s.u m metric).d)⟩
      refine ⟨?_, ?_, fun _ => hs (by omega)⟩
      · rw [hp]
        show s.p + 1 + (k + 1) = s.p + (k + 1 + 1)
        omega
      · rw [hl]
        show (s.jm ++ [(cmeans_predict0 D test_data s.cntrCur s.u m metric).jm]).length +
            (k + 1) = s.jm.length + (k + 1 + 1)
        simp [List.length_append]
        omega

lemma predictLoop_cntrCur {S N c : ℕ} (D : DistFn S N c) (test_data : Mat S N)
    (m error : ℝ) (metric : String) :
    ∀ fuel (s : PredictState S N c),
      (predictLoop D test_data m error metric fuel s).cntrCur = s.cntrCur := by
  intro fuel
  induction fuel with
  | zero => intro s; rfl
  | succ n ih =>
    intro s
    simp only [predictLoop]
    split
    · rfl
    · rw [ih]
      rfl

lemma cmeans_some_u_shape {S N c : ℕ} (D : DistFn S N c) (data : Mat S N)
    (m error : ℝ) (maxiter : ℕ) (init : Option (Mat c N)) (u0rand : Mat c N)
    (metric : String) (r : CMeansResult S N c) (hmax : 2 ≤ maxiter)
    (hr : cmeans D data m error maxiter init u0rand metric = some r) :
    ∃ w, r.u = (cmeans0 D data w m metric).u := by
  obtain ⟨w, hw⟩ := cmeansLoop_u_shape D data m error metric (maxiter - 1)
    ⟨clampBelow (init.getD (colNormalize u0rand)) eps64, [], 0, none⟩ (by omega)
  simp only [cmeans] at hr
  rcases hlast : (cmeansLoop D data m error metric (maxiter - 1)
      ⟨clampBelow (init.getD (colNormalize u0rand)) eps64, [], 0, none⟩).last with _ | l
  · rw [hlast] at hr
    simp at hr
  · rw [hlast] at hr
    simp only [Option.map_some'] at hr
    refine ⟨w, ?_⟩
    rw [← Option.some.inj hr]
    exact hw

lemma cmeans_predict_some_u_shape {S N c : ℕ} (D : DistFn S N c)
    (test_data : Mat S N) (cntr_trained : Mat c S) (m error : ℝ)
    (maxiter : ℕ) (init : Option (Mat c N)) (u0rand : Mat c N)
    (metric : String) (r : PredictResult S N c) (hmax : 2 ≤ maxiter)
    (hr : cmeans_predict D test_data cntr_trained m error maxiter init u0rand
      metric = some r) :
    ∃ ct w, r.u = (cmeans_predict0 D test_data ct w m metric).u := by
  obtain ⟨ct, w, hw⟩ := predictLoop_u_shape D test_data m error metric (maxiter - 1)
    ⟨clampBelow (init.getD (colNormalize u0rand)) eps64, [], 0, cntr_trained, none⟩
    (by omega)
  simp only [cmeans_predict] at hr
  rcases hlast : (predictLoop D test_data m error metric (maxiter - 1)
      ⟨clampBelow (init.getD (colNormalize u0rand)) eps64, [], 0, cntr_trained,
        none⟩).last with _ | l
  · rw [hlast] at hr
    simp at hr
  · rw [hlast] at hr
    simp only [Option.map_some'] at hr
    refine ⟨ct, w, ?_⟩
    rw [← Option.some.inj hr]
    exact hw

/-!
## Concrete evaluations on 1×1 inputs
-/

lemma max_one_eps64 : max (1 : ℝ) eps64 = 1 := max_eq_left eps64_le_one

lemma clampBelow_one1 : clampBelow one1 eps64 = one1 := by
  funext i j
  simp [clampBelow, one1, max_eq_left eps64_le_one]

lemma fp_coeff_one1 : fp_coeff one1 = 1 := by
  simp [fp_coeff, traceM, dotM, transposeM, one1, Fin.sum_univ_one]

lemma frobNorm_one1_sub_one1 : frobNorm (one1 - one1) = (0 : ℝ) := by
  simp [frobNorm, one1, Fin.sum_univ_one]

lemma frobNorm_zeroMat : frobNorm (0 : Mat 1 1) = 0 := by
  simp [frobNorm, Fin.sum_univ_one]

lemma cmeans0_one1 (metric : String) :
    cmeans0 trivD zero1 one1 2 metric =
      ⟨zero1, one1, eps64 ^ (2 : ℕ), epsM, one1⟩ := by
  have hne : eps64 ^ (-2 / (2 - 1) : ℝ) ≠ 0 :=
    ne_of_gt (Real.rpow_pos_of_pos eps64_pos _)
  unfold cmeans0 trivD zero1 one1 epsM colNormalize clampBelow dotM transposeM
    colSum rowSum
  ext <;>
    simp [Fin.sum_univ_one, max_eq_left eps64_le_one, max_eq_right eps64_pos.le,
      Real.one_rpow, div_self, hne]

lemma cmeans_predict0_one1 (metric : String) :
    cmeans_predict0 trivD zero1 zero1 one1 2 metric =
      ⟨one1, eps64 ^ (2 : ℕ), epsM, one1, zero1⟩ := by
  have hne : eps64 ^ (-2 / (2 - 1) : ℝ) ≠ 0 :=
    ne_of_gt (Real.rpow_pos_of_pos eps64_pos _)
  unfold cmeans_predict0 trivD zero1 one1 epsM colNormalize clampBelow
    transposeM colSum
  ext <;>
    simp [Fin.sum_univ_one, max_eq_left eps64_le_one, max_eq_right eps64_pos.le,
      Real.one_rpow, div_self, hne]

lemma cmeans_run2 :
    cmeans trivD zero1 2 1 2 (some one1) one1 "euclidean" =
      some ⟨zero1, one1, one1, epsM, [eps64 ^ (2 : ℕ)], 1, 1⟩ := by
  simp [cmeans, cmeansLoop, cmeans0_one1, clampBelow_one1,
    frobNorm_one1_sub_one1, fp_coeff_one1]

lemma cmeans_run3 :
    cmeans trivD zero1 2 0 3 (some one1) one1 "euclidean" =
      some ⟨zero1, one1, one1, epsM, [eps64 ^ (2 : ℕ), eps64 ^ (2 : ℕ)], 2, 1⟩ := by
  simp [cmeans, cmeansLoop, cmeans0_one1, clampBelow_one1,
    frobNorm_one1_sub_one1, fp_coeff_one1, frobNorm_nonneg, frobNorm_zeroMat]

lemma cmeans_predict_run2 :
    cmeans_predict trivD zero1 zero1 2 1 2 (some one1) one1 "euclidean" =
      some ⟨one1, one1, epsM, [eps64 ^ (2 : ℕ)], 1, 1⟩ := by
  simp [cmeans_predict, predictLoop, cmeans_predict0_one1, clampBelow_one1,
    frobNorm_one1_sub_one1, fp_coeff_one1]

/-!
## Congruence in the distance function
-/

lemma cmeans0_congr {S N c : ℕ} (D₁ D₂ : DistFn S N c) (data : Mat S N)
    (u_old : Mat c N) (m : ℝ) (metric : String)
    (h : D₁ metric = D₂ metric) :
    cmeans0 D₁ data u_old m metric = cmeans0 D₂ data u_old m metric := by
  unfold cmeans0
  rw [h]

lemma cmeans_predict0_congr {S N c : ℕ} (D₁ D₂ : DistFn S N c)
    (test_data : Mat S N) (cntr : Mat c S) (u_old : Mat c N) (m : ℝ)
    (metric : String) (h : D₁ metric = D₂ metric) :
    cmeans_predict0 D₁ test_data cntr u_old m metric =
      cmeans_predict0 D₂ test_data cntr u_old m metric := by
  unfold cmeans_predict0
  rw [h]

lemma cmeansLoop_congr {S N c : ℕ} (D₁ D₂ : DistFn S N c) (data : Mat S N)
    (m error : ℝ) (metric : String) (h : D₁ metric = D₂ metric) :
    ∀ fuel (s : CMeansState S N c),
      cmeansLoop D₁ data m error metric fuel s =
        cmeansLoop D₂ data m error metric fuel s := by
  intro fuel
  induction fuel with
  | zero => intro s; rfl
  | succ n ih =>
    intro s
    simp only [cmeansLoop, cmeans0_congr D₁ D₂ data s.u m metric h]
    split
    · rfl
    · exact ih _

lemma predictLoop_congr {S N c : ℕ} (D₁ D₂ : DistFn S N c)
    (test_data : Mat S N) (m error : ℝ) (metric : String)
    (h : D₁ metric = D₂ metric) :
    ∀ fuel (s : PredictState S N c),
      predictLoop D₁ test_data m error metric fuel s =
        predictLoop D₂ test_data m error metric fuel s := by
  intro fuel
  induction fuel with
  | zero => intro s; rfl
  | succ n ih =>
    intro s
    simp only [predictLoop,
      cmeans_predict0_congr D₁ D₂ test_data s.cntrCur s.u m metric h]
    split
    · rfl
    · exact ih _

/-!
## Iteration-count bounds
-/

lemma cmeansLoop_p_le {S N c : ℕ} (D : DistFn S N c) (data : Mat S N)
    (m error : ℝ) (metric : String) :
    ∀ fuel (s : CMeansState S N c),
      (cmeansLoop D data m error metric fuel s).p ≤ s.p + fuel := by
  intro fuel
  induction fuel with
  | zero => intro s; exact Nat.le_add_right _ _
  | succ n ih =>
    intro s
    simp only [cmeansLoop]
    split
    · show s.p + 1 ≤ s.p + (n + 1)
      omega
    · calc (cmeansLoop D data m error metric n _).p ≤ s.p + 1 + n := ih _
        _ ≤ s.p + (n + 1) := by omega

lemma predictLoop_p_le {S N c : ℕ} (D : DistFn S N c) (test_data : Mat S N)
    (m error : ℝ) (metric : String) :
    ∀ fuel (s : PredictState S N c),
      (predictLoop D test_data m error metric fuel s).p ≤ s.p + fuel := by
  intro fuel
  induction fuel with
  | zero => intro s; exact Nat.le_add_right _ _
  | succ n ih =>
    intro s
    simp only [predictLoop]
    split
    · show s.p + 1 ≤ s.p + (n + 1)
      omega
    · calc (predictLoop D test_data m error metric n _).p ≤ s.p + 1 + n := ih _
        _ ≤ s.p + (n + 1) := by omega

/-!
## The claims
-/

/-- C1: a single training step `cmeans0` computes the standard fuzzy
c-means update adapted from the reference skfuzzy implementation: for every
data array of shape (S, N), membership matrix `u_old` of shape (c, N) and
fuzzifier `m` (in particular every positive `u_old` and every `m > 1`), it
column-normalizes `u_old` and clamps it below by machine epsilon, computes
the cluster centers as `u_old ** m` dot the transposed data divided
row-wise by the row sums of `u_old ** m`, computes the distance matrix `d`
of the data to the centers clamped below by machine epsilon, returns the
objective value `jm = sum(u_old ** m * d ** 2)`, and returns the new
membership matrix proportional to `d ** (-2/(m-1))` with each column
normalized to sum to 1 — as spelled out by `cmeans0_spec`. -/
theorem C1_cmeans0_matches_skfuzzy_update {S N c : ℕ} (D : DistFn S N c)
    (data : Mat S N) (u_old : Mat c N) (m : ℝ) (metric : String) :
    (cmeans0 D data u_old m metric).cntr =
      (cmeans0_spec D data u_old m metric).1 ∧
    (cmeans0 D data u_old m metric).u =
      (cmeans0_spec D data u_old m metric).2.1 ∧
    (cmeans0 D data u_old m metric).jm =
      (cmeans0_spec D data u_old m metric).2.2.1 ∧
    (cmeans0 D data u_old m metric).d =
      (cmeans0_spec D data u_old m metric).2.2.2 :=
  ⟨rfl, rfl, rfl, rfl⟩

/-- C2: membership-matrix column normalization is an invariant of every
clustering step: every column of the membership matrix `u` returned by
`cmeans0` and by `cmeans_predict0` sums to 1, and consequently so does
every column of the final membership matrix returned by `cmeans` and by
`cmeans_predict` whenever `maxiter ≥ 2` (for at least one cluster). -/
theorem C2_membership_columns_sum_to_one {S N c : ℕ} (hc : 0 < c) :
    (∀ (D : DistFn S N c) (data : Mat S N) (u_old : Mat c N) (m : ℝ)
        (metric : String) (j : Fin N),
        colSum (cmeans0 D data u_old m metric).u j = 1) ∧
    (∀ (D : DistFn S N c) (test_data : Mat S N) (cntr : Mat c S)
        (u_old : Mat c N) (m : ℝ) (metric : String) (j : Fin N),
        colSum (cmeans_predict0 D test_data cntr u_old m metric).u j = 1) ∧
    (∀ (D : DistFn S N c) (data : Mat S N) (m error : ℝ) (maxiter : ℕ)
        (init : Option (Mat c N)) (u0rand : Mat c N) (metric : String)
        (r : CMeansResult S N c), 2 ≤ maxiter →
        cmeans D data m error maxiter init u0rand metric = some r →
        ∀ j, colSum r.u j = 1) ∧
    (∀ (D : DistFn S N c) (test_data : Mat S N) (cntr_trained : Mat c S)
        (m error : ℝ) (maxiter : ℕ) (init : Option (Mat c N))
        (u0rand : Mat c N) (metric : String) (r : PredictResult S N c),
        2 ≤ maxiter →
        cmeans_predict D test_data cntr_trained m error maxiter init u0rand
          metric = some r →
        ∀ j, colSum r.u j = 1) := by
  refine ⟨fun D data u_old m metric j => cmeans0_colSum_u hc D data u_old m metric j,
    fun D t cntr u_old m metric j => cmeans_predict0_colSum_u hc D t cntr u_old m metric j,
    ?_, ?_⟩
  · intro D data m error maxiter init u0rand metric r hmax hr j
    obtain ⟨w, hw⟩ :=
      cmeans_some_u_shape D data m error maxiter init u0rand metric r hmax hr
    rw [hw]
    exact cmeans0_colSum_u hc D data w m metric j
  · intro D t ct m error maxiter init u0rand metric r hmax hr j
    obtain ⟨ct', w, hw⟩ := cmeans_predict_some_u_shape D t ct m error maxiter
      init u0rand metric r hmax hr
    rw [hw]
    exact cmeans_predict0_colSum_u hc D t ct' w m metric j

/-- C2 witness: at the concrete 1×1 run `cmeans_run2` with `maxiter = 2`,
the hypotheses hold and the final membership column sums to 1. -/
theorem C2_witness :
    (0 : ℕ) < 1 ∧ (2 : ℕ) ≤ 2 ∧ colSum one1 0 = 1 :=
  ⟨Nat.zero_lt_one, le_refl 2,
    (C2_membership_columns_sum_to_one Nat.zero_lt_one).2.2.1 trivD zero1 2 1 2
      (some one1) one1 "euclidean" _ (le_refl 2) cmeans_run2 0⟩

/-- C3 counterexample: with `maxiter = 3` and `error = 0` the stopping rule
`frobNorm (u - u2) < 0` can never hold, yet `cmeans` returns `p = 2`, not
`p = maxiter = 3` as the claim states: the loop `while p < maxiter - 1`
performs only `maxiter - 1` iterations. -/
theorem C3_counterexample :
    (cmeans trivD zero1 2 0 3 (some one1) one1 "euclidean").map
      CMeansResult.p = some 2 ∧ (2 : ℕ) ≠ 3 := by
  refine ⟨?_, by norm_num⟩
  rw [cmeans_run3]
  rfl

/-- C3 (amended): the iterative optimization in `cmeans` and
`cmeans_predict` always terminates — the loop runs at most its fuel of
`maxiter - 1` iterations — and obeys its convergence criterion: the loop
stops as soon as the norm of the difference between the new membership
matrix and the (column-renormalized) previous one falls below `error`;
otherwise, when the criterion can never be satisfied (`error ≤ 0`), it runs
for `maxiter - 1` iterations and returns `p = maxiter - 1` as the number of
iterations run (not `maxiter`), with one objective value appended to `jm`
per iteration. -/
theorem C3_convergence_and_termination_amended {S N c : ℕ} :
    (∀ (D : DistFn S N c) (data : Mat S N) (m error : ℝ) (metric : String)
        (fuel : ℕ) (s : CMeansState S N c),
        frobNorm ((cmeans0 D data s.u m metric).u -
            (cmeans0 D data s.u m metric).uOldMut) < error →
        cmeansLoop D data m error metric (fuel + 1) s =
          ⟨(cmeans0 D data s.u m metric).u,
            s.jm ++ [(cmeans0 D data s.u m metric).jm], s.p + 1,
            some ((cmeans0 D data s.u m metric).cntr,
              (cmeans0 D data s.u m metric).uOldMut,
              (cmeans0 D data s.u m metric).d)⟩) ∧
    (∀ (D : DistFn S N c) (test_data : Mat S N) (m error : ℝ)
        (metric : String) (fuel : ℕ) (s : PredictState S N c),
        frobNorm ((cmeans_predict0 D test_data s.cntrCur s.u m metric).u -
            (cmeans_predict0 D test_data s.cntrCur s.u m metric).uOldMut) <
          error →
        predictLoop D test_data m error metric (fuel + 1) s =
          ⟨(cmeans_predict0 D test_data s.cntrCur s.u m metric).u,
            s.jm ++ [(cmeans_predict0 D test_data s.cntrCur s.u m metric).jm],
            s.p + 1,
            (cmeans_predict0 D test_data s.cntrCur s.u m metric).cntrOut,
            some ((cmeans_predict0 D test_data s.cntrCur s.u m metric).uOldMut,
              (cmeans_predict0 D test_data s.cntrCur s.u m metric).d)⟩) ∧
    (∀ (D : DistFn S N c) (data : Mat S N) (m error : ℝ) (metric : String)
        (fuel : ℕ) (s : CMeansState S N c),
        (cmeansLoop D data m error metric fuel s).p ≤ s.p + fuel) ∧
    (∀ (D : DistFn S N c) (test_data : Mat S N) (m error : ℝ)
        (metric : String) (fuel : ℕ) (s : PredictState S N c),
        (predictLoop D test_data m error metric fuel s).p ≤ s.p + fuel) ∧
    (∀ (D : DistFn S N c) (data : Mat S N) (m error : ℝ) (maxiter : ℕ)
        (init : Option (Mat c N)) (u0rand : Mat c N) (metric : String),
        error ≤ 0 → 2 ≤ maxiter →
        ∃ r, cmeans D data m error maxiter init u0rand metric = some r ∧
          r.p = maxiter - 1 ∧ r.jm.length = maxiter - 1) ∧
    (∀ (D : DistFn S N c) (test_data : Mat S N) (cntr_trained : Mat c S)
        (m error : ℝ) (maxiter : ℕ) (init : Option (Mat c N))
        (u0rand : Mat c N) (metric : String),
        error ≤ 0 → 2 ≤ maxiter →
        ∃ r, cmeans_predict D test_data cntr_trained m error maxiter init
            u0rand metric = some r ∧
          r.p = maxiter - 1 ∧ r.jm.length = maxiter - 1) := by
  refine ⟨?_, ?_, ?_, ?_, ?_, ?_⟩
  · intro D data m error metric fuel s h
    simp only [cmeansLoop]
    rw [if_pos h]
  · intro D test_data m error metric fuel s h
    simp only [predictLoop]
    rw [if_pos h]
  · intro D data m error metric fuel s
    exact cmeansLoop_p_le D data m error metric fuel s
  · intro D test_data m error metric fuel s
    exact predictLoop_p_le D test_data m error metric fuel s
  · intro D data m error maxiter init u0rand metric herr hmax
    obtain ⟨hp, hl, hs⟩ := cmeansLoop_no_stop D data m error metric herr
      (maxiter - 1) ⟨clampBelow (init.getD (colNormalize u0rand)) eps64, [], 0, none⟩
    obtain ⟨l, hlast⟩ := Option.isSome_iff_exists.mp (hs (by omega))
    refine ⟨⟨l.1, (cmeansLoop D data m error metric (maxiter - 1)
        ⟨clampBelow (init.getD (colNormalize u0rand)) eps64, [], 0, none⟩).u,
      init.getD (colNormalize u0rand), l.2.2,
      (cmeansLoop D data m error metric (maxiter - 1)
        ⟨clampBelow (init.getD (colNormalize u0rand)) eps64, [], 0, none⟩).jm,
      (cmeansLoop D data m error metric (maxiter - 1)
        ⟨clampBelow (init.getD (colNormalize u0rand)) eps64, [], 0, none⟩).p,
      fp_coeff (cmeansLoop D data m error metric (maxiter - 1)
        ⟨clampBelow (init.getD (colNormalize u0rand)) eps64, [], 0, none⟩).u⟩,
      ?_, ?_, ?_⟩
    · simp only [cmeans, hlast, Option.map_some']
    · rw [hp]
      simp
    · rw [hl]
      simp
  · intro D test_data cntr_trained m error maxiter init u0rand metric herr hmax
    obtain ⟨hp, hl, hs⟩ := predictLoop_no_stop D test_data m error metric herr
      (maxiter - 1)
      ⟨clampBelow (init.getD (colNormalize u0rand)) eps64, [], 0, cntr_trained, none⟩
    obtain ⟨l, hlast⟩ := Option.isSome_iff_exists.mp (hs (by omega))
    refine ⟨⟨(predictLoop D test_data m error metric (maxiter - 1)
        ⟨clampBelow (init.getD (colNormalize u0rand)) eps64, [], 0, cntr_trained,
          none⟩).u,
      init.getD (colNormalize u0rand), l.2,
      (predictLoop D test_data m error metric (maxiter - 1)
        ⟨clampBelow (init.getD (colNormalize u0rand)) eps64, [], 0, cntr_trained,
          none⟩).jm,
      (predictLoop D test_data m error metric (maxiter - 1)
        ⟨clampBelow (init.getD (colNormalize u0rand)) eps64, [], 0, cntr_trained,
          none⟩).p,
      fp_coeff (predictLoop D test_data m error metric (maxiter - 1)
        ⟨clampBelow (init.getD (colNormalize u0rand)) eps64, [], 0, cntr_trained,
          none⟩).u⟩, ?_, ?_, ?_⟩
    · simp only [cmeans_predict, hlast, Option.map_some']
    · rw [hp]
      simp
    · rw [hl]
      simp

/-- C3 witness: at the concrete 1×1 input with `error = 0` and
`maxiter = 3` the hypotheses hold, and the run returns `p = 3 - 1` with one
objective value per iteration. -/
theorem C3_witness :
    (0 : ℝ) ≤ 0 ∧ (2 : ℕ) ≤ 3 ∧
    ∃ r, cmeans trivD zero1 2 0 3 (some one1) one1 "euclidean" = some r ∧
      r.p = 3 - 1 ∧ r.jm.length = 3 - 1 :=
  ⟨le_refl 0, by norm_num,
    (C3_convergence_and_termination_amended.2.2.2.2.1 trivD zero1 2 0 3
      (some one1) one1 "euclidean" (le_refl 0) (by norm_num))⟩

/-- C4: prediction never moves the trained centers.  The body of
`cmeans_predict0` never assigns to the `cntr` array (`cntrOut = cntr`), the
`cmeans_predict` loop threads `cntr_trained` through unchanged, and every
prediction step recomputes only the membership matrix, the objective value
and the distance matrix, each from the distances of the test data to those
fixed centers — unlike the training step, whose `cntr` output is
recomputed from `u_old` and the data. -/
theorem C4_prediction_never_moves_centers {S N c : ℕ} :
    (∀ (D : DistFn S N c) (test_data : Mat S N) (cntr : Mat c S)
        (u_old : Mat c N) (m : ℝ) (metric : String),
        (cmeans_predict0 D test_data cntr u_old m metric).cntrOut = cntr) ∧
    (∀ (D : DistFn S N c) (test_data : Mat S N) (m error : ℝ)
        (metric : String) (fuel : ℕ) (s : PredictState S N c),
        (predictLoop D test_data m error metric fuel s).cntrCur =
          s.cntrCur) ∧
    (∀ (D : DistFn S N c) (test_data : Mat S N) (cntr : Mat c S)
        (u_old : Mat c N) (m : ℝ) (metric : String),
        (cmeans_predict0 D test_data cntr u_old m metric).d =
          clampBelow (D metric (transposeM test_data) cntr) eps64 ∧
        (cmeans_predict0 D test_data cntr u_old m metric).u =
          colNormalize (fun i j =>
            clampBelow (D metric (transposeM test_data) cntr) eps64 i j ^
              (-2 / (m - 1) : ℝ)) ∧
        (cmeans_predict0 D test_data cntr u_old m metric).jm =
          ∑ i, ∑ j, clampBelow (colNormalize u_old) eps64 i j ^ m *
            clampBelow (D metric (transposeM test_data) cntr) eps64 i j ^
              (2 : ℕ)) ∧
    (∀ (D : DistFn S N c) (data : Mat S N) (u_old : Mat c N) (m : ℝ)
        (metric : String),
        (cmeans0 D data u_old m metric).cntr = fun i s =>
          dotM (fun i' j => clampBelow (colNormalize u_old) eps64 i' j ^ m)
              (transposeM data) i s /
            rowSum (fun i' j =>
              clampBelow (colNormalize u_old) eps64 i' j ^ m) i) :=
  ⟨fun _ _ _ _ _ _ => rfl,
    fun D t m error metric fuel s => predictLoop_cntrCur D t m error metric fuel s,
    fun _ _ _ _ _ _ => ⟨rfl, rfl, rfl⟩,
    fun _ _ _ _ _ => rfl⟩

/-- C7: the distance metric is pluggable — the metric string accepted by
`cmeans` and `cmeans_predict` (defaulting to `"euclidean"`) is forwarded
unchanged to the distance function in every iteration of both the training
step and the prediction step, and the metric affects the result only
through the distance matrix computation: any two distance functions that
agree on the given metric yield identical results everywhere. -/
theorem C7_metric_pluggable {S N c : ℕ} :
    (∀ (D₁ D₂ : DistFn S N c) (data : Mat S N) (u_old : Mat c N) (m : ℝ)
        (metric : String), D₁ metric = D₂ metric →
        cmeans0 D₁ data u_old m metric = cmeans0 D₂ data u_old m metric) ∧
    (∀ (D₁ D₂ : DistFn S N c) (test_data : Mat S N) (cntr : Mat c S)
        (u_old : Mat c N) (m : ℝ) (metric : String), D₁ metric = D₂ metric →
        cmeans_predict0 D₁ test_data cntr u_old m metric =
          cmeans_predict0 D₂ test_data cntr u_old m metric) ∧
    (∀ (D₁ D₂ : DistFn S N c) (data : Mat S N) (m error : ℝ) (maxiter : ℕ)
        (init : Option (Mat c N)) (u0rand : Mat c N) (metric : String),
        D₁ metric = D₂ metric →
        cmeans D₁ data m error maxiter init u0rand metric =
          cmeans D₂ data m error maxiter init u0rand metric) ∧
    (∀ (D₁ D₂ : DistFn S N c) (test_data : Mat S N) (cntr_trained : Mat c S)
        (m error : ℝ) (maxiter : ℕ) (init : Option (Mat c N))
        (u0rand : Mat c N) (metric : String), D₁ metric = D₂ metric →
        cmeans_predict D₁ test_data cntr_trained m error maxiter init u0rand
          metric =
          cmeans_predict D₂ test_data cntr_trained m error maxiter init
            u0rand metric) ∧
    (∀ (D : DistFn S N c) (data : Mat S N) (u_old : Mat c N) (m : ℝ),
        cmeans0 D data u_old m = cmeans0 D data u_old m "euclidean") ∧
    (∀ (D : DistFn S N c) (data : Mat S N) (m error : ℝ) (maxiter : ℕ)
        (init : Option (Mat c N)) (u0rand : Mat c N),
        cmeans D data m error maxiter init u0rand =
          cmeans D data m error maxiter init u0rand "euclidean") ∧
    (∀ (D : DistFn S N c) (test_data : Mat S N) (cntr : Mat c S)
        (u_old : Mat c N) (m : ℝ),
        cmeans_predict0 D test_data cntr u_old m =
          cmeans_predict0 D test_data cntr u_old m "euclidean") ∧
    (∀ (D : DistFn S N c) (test_data : Mat S N) (cntr_trained : Mat c S)
        (m error : ℝ) (maxiter : ℕ) (init : Option (Mat c N))
        (u0rand : Mat c N),
        cmeans_predict D test_data cntr_trained m error maxiter init u0rand =
          cmeans_predict D test_data cntr_trained m error maxiter init u0rand
            "euclidean") := by
  refine ⟨cmeans0_congr, cmeans_predict0_congr, ?_, ?_,
    fun D data u_old m => rfl, fun D data m error maxiter init u0rand => rfl,
    fun D t cntr u_old m => rfl,
    fun D t ct m error maxiter init u0rand => rfl⟩
  · intro D₁ D₂ data m error maxiter init u0rand metric h
    simp only [cmeans,
      cmeansLoop_congr D₁ D₂ data m error metric h (maxiter - 1)]
  · intro D₁ D₂ test_data cntr_trained m error maxiter init u0rand metric h
    simp only [cmeans_predict,
      predictLoop_congr D₁ D₂ test_data m error metric h (maxiter - 1)]

/-- C7 witness: `trivD` and `trivD2` agree on the metric `"euclidean"`, and
the training step gives identical results for the two. -/
theorem C7_witness :
    trivD "euclidean" = trivD2 "euclidean" ∧
    cmeans0 trivD zero1 one1 2 "euclidean" =
      cmeans0 trivD2 zero1 one1 2 "euclidean" := by
  have h : trivD "euclidean" = trivD2 "euclidean" := by
    funext x y i j
    simp [trivD, trivD2]
  exact ⟨h, C7_metric_pluggable.1 trivD trivD2 zero1 one1 2 "euclidean" h⟩

/-- C8: for every call with `maxiter ≤ 1`, `cmeans` and `cmeans_predict`
fail with an unbound-variable error instead of returning a result (modelled
by `none`): the loop condition `p < maxiter - 1` with `p` starting at 0
means the loop body never executes, yet the loop-local variables `cntr`,
`d` and `u2` (respectively `d` and `u2`) are read after the loop. -/
theorem C8_maxiter_le_one_fails {S N c : ℕ} :
    ∀ (D : DistFn S N c) (data : Mat S N) (cntr_trained : Mat c S)
      (m error : ℝ) (maxiter : ℕ) (init : Option (Mat c N))
      (u0rand : Mat c N) (metric : String), maxiter ≤ 1 →
      cmeans D data m error maxiter init u0rand metric = none ∧
      cmeans_predict D data cntr_trained m error maxiter init u0rand metric =
        none := by
  intro D data cntr_trained m error maxiter init u0rand metric hmax
  have h0 : maxiter - 1 = 0 := by omega
  constructor
  · simp only [cmeans, h0, cmeansLoop]
    rfl
  · simp only [cmeans_predict, h0, predictLoop]
    rfl

/-- C8 witness: at `maxiter = 1` on concrete 1×1 inputs, both functions
return `none`. -/
theorem C8_witness :
    (1 : ℕ) ≤ 1 ∧
    cmeans trivD zero1 2 1 1 (some one1) one1 "euclidean" = none ∧
    cmeans_predict trivD zero1 zero1 2 1 1 (some one1) one1 "euclidean" =
      none :=
  ⟨le_refl 1,
    C8_maxiter_le_one_fails trivD zero1 zero1 2 1 1 (some one1) one1
      "euclidean" (le_refl 1)⟩

/-- C5: `load_df_in_any_format` returns a dataframe for every input file
whose extension is `.csv`, `.xlsx` or `.txt`: a `.csv` file is read with
`pd.read_csv`, an `.xlsx` file with `pd.read_excel`, and a `.txt` file
with `pd.read_csv` using a delimiter auto-detected from the file's
contents restricted to the whitelist tab, `:`, `;`, space, `,`. -/
theorem C5_load_df_recognized_extensions :
    ∀ (DF : Type) (calls : LoadCalls DF) (content file : String),
      (splitextExt file = ".csv" →
        load_df_in_any_format calls content file =
          some (calls.readCsv file)) ∧
      (splitextExt file = ".xlsx" →
        load_df_in_any_format calls content file =
          some (calls.readExcel file)) ∧
      (splitextExt file = ".txt" →
        load_df_in_any_format calls content file =
          some (calls.readCsvSep file (calls.detect content txtWhitelist))) := by
  intro DF calls content file
  refine ⟨fun h => ?_, fun h => ?_, fun h => ?_⟩ <;>
    simp [load_df_in_any_format, h]

/-- C5 witness: the three branches at concrete file names. -/
theorem C5_witness :
    splitextExt "data.csv" = ".csv" ∧
    splitextExt "report.xlsx" = ".xlsx" ∧
    splitextExt "notes.txt" = ".txt" ∧
    load_df_in_any_format callsNat "a,b" "data.csv" = some 0 ∧
    load_df_in_any_format callsNat "a,b" "report.xlsx" = some 1 ∧
    load_df_in_any_format callsNat "a,b" "notes.txt" = some 2 :=
  ⟨by decide, by decide, by decide,
    (C5_load_df_recognized_extensions ℕ callsNat "a,b" "data.csv").1
      (by decide),
    (C5_load_df_recognized_extensions ℕ callsNat "a,b" "report.xlsx").2.1
      (by decide),
    (C5_load_df_recognized_extensions ℕ callsNat "a,b" "notes.txt").2.2
      (by decide)⟩

/-- C9: for every input file whose extension is not exactly `.csv`,
`.xlsx` or `.txt` (including uppercase variants and extensionless paths),
`load_df_in_any_format` raises an unbound-variable error — modelled by
`none` — because the local `df` is assigned only in the three recognized
branches before being returned. -/
theorem C9_load_df_unrecognized_extension_fails :
    ∀ (DF : Type) (calls : LoadCalls DF) (content file : String),
      splitextExt file ≠ ".csv" → splitextExt file ≠ ".xlsx" →
      splitextExt file ≠ ".txt" →
      load_df_in_any_format calls content file = none := by
  intro DF calls content file h1 h2 h3
  simp [load_df_in_any_format, h1, h2, h3]

/-- C9 witness: an uppercase extension and an extensionless path both make
`load_df_in_any_format` fail. -/
theorem C9_witness :
    (splitextExt "data.CSV" ≠ ".csv" ∧ splitextExt "data.CSV" ≠ ".xlsx" ∧
      splitextExt "data.CSV" ≠ ".txt" ∧
      load_df_in_any_format callsNat "a,b" "data.CSV" = none) ∧
    (splitextExt "data" ≠ ".csv" ∧ splitextExt "data" ≠ ".xlsx" ∧
      splitextExt "data" ≠ ".txt" ∧
      load_df_in_any_format callsNat "a,b" "data" = none) :=
  ⟨⟨by decide, by decide, by decide,
      C9_load_df_unrecognized_extension_fails ℕ callsNat "a,b" "data.CSV"
        (by decide) (by decide) (by decide)⟩,
    ⟨by decide, by decide, by decide,
      C9_load_df_unrecognized_extension_fails ℕ callsNat "a,b" "data"
        (by decide) (by decide) (by decide)⟩⟩

/-- C6: directory validation in `assert_output_dir_exist` behaves as
follows for every required (and every given truthy optional) path: a
missing directory is created when `create_dir` is true and the program
exits with an error message when `create_dir` is false; an existing
non-empty directory makes the program exit with an error message when
`overwrite` is false, and when `overwrite` is true every file and
subdirectory inside it is deleted; an existing empty directory passes
validation unchanged.  The last four conjuncts lift the per-path `check`
to the required and optional lists, where empty (falsy) optional entries
are skipped. -/
theorem C6_assert_output_dir_exist_behaviour :
    (∀ ow : Bool, checkDir ow false DirState.absent =
      Except.error
        "Output directory does not exist. Use create_dir = True.") ∧
    (∀ ow : Bool, checkDir ow true DirState.absent =
      Except.ok (DirState.present [])) ∧
    (∀ (cd : Bool) (es : List String), es ≠ [] →
      checkDir false cd (DirState.present es) =
        Except.error
          "Output directory is not empty. Use -f to overwrite the existing content.") ∧
    (∀ (cd : Bool) (es : List String), es ≠ [] →
      checkDir true cd (DirState.present es) =
        Except.ok (DirState.present [])) ∧
    (∀ ow cd : Bool, checkDir ow cd (DirState.present []) =
      Except.ok (DirState.present [])) ∧
    (∀ (ow cd : Bool) (p : String) (fs : String → DirState) (e : String),
      checkDir ow cd (fs p) = Except.error e →
      assert_output_dir_exist ow [p] [] cd fs = Except.error e) ∧
    (∀ (ow cd : Bool) (p : String) (fs : String → DirState) (s : DirState),
      checkDir ow cd (fs p) = Except.ok s →
      assert_output_dir_exist ow [p] [] cd fs =
        Except.ok (fun q => if q = p then s else fs q)) ∧
    (∀ (ow cd : Bool) (p : String) (fs : String → DirState) (s : DirState),
      p ≠ "" → checkDir ow cd (fs p) = Except.ok s →
      assert_output_dir_exist ow [] [p] cd fs =
        Except.ok (fun q => if q = p then s else fs q)) ∧
    (∀ (ow cd : Bool) (fs : String → DirState),
      assert_output_dir_exist ow [] [""] cd fs = Except.ok fs) := by
  refine ⟨fun ow => rfl, fun ow => rfl, ?_, ?_, fun ow cd => rfl, ?_, ?_, ?_, ?_⟩
  · intro cd es h
    simp [checkDir, h]
  · intro cd es h
    simp [checkDir, h]
  · intro ow cd p fs e h
    simp [assert_output_dir_exist, checkDirs, h]
  · intro ow cd p fs s h
    simp [assert_output_dir_exist, checkDirs, h]
  · intro ow cd p fs s hp h
    simp [assert_output_dir_exist, checkDirs, hp, h]
  · intro ow cd fs
    simp [assert_output_dir_exist, checkDirs]

/-- C6 witness: concrete cases — a non-empty directory is emptied under
`overwrite`, and a truthy optional path is validated with the state map
updated. -/
theorem C6_witness :
    (["old"] ≠ ([] : List String)) ∧
    checkDir true true (DirState.present ["old"]) =
      Except.ok (DirState.present []) ∧
    (("out" : String) ≠ "") ∧
    checkDir true true ((fun _ => DirState.present ["old"]) "out") =
      Except.ok (DirState.present []) ∧
    assert_output_dir_exist true [] ["out"] true
        (fun _ => DirState.present ["old"]) =
      Except.ok (fun q => if q = "out" then DirState.present []
        else (fun _ => DirState.present ["old"]) q) := by
  have h1 : (["old"] : List String) ≠ [] := by decide
  have h2 : checkDir true true (DirState.present ["old"]) =
      Except.ok (DirState.present []) :=
    C6_assert_output_dir_exist_behaviour.2.2.2.1 true ["old"] h1
  exact ⟨h1, h2, by decide, h2,
    C6_assert_output_dir_exist_behaviour.2.2.2.2.2.2.2.1 true true "out"
      (fun _ => DirState.present ["old"]) (DirState.present [])
      (by decide) h2⟩

/-- C10 counterexample: at `num_axes = 1` the layout is 1×1, so
`plt.subplots(1, 1)` with matplotlib's default `squeeze=True` returns a
bare `Axes` object and `axes.flat` raises `AttributeError` before any plot
is drawn: the single requested bar plot is never assigned an axis,
refuting the claim at `num_axes = 1`. -/
theorem C10_counterexample :
    (1 : ℕ) ≤ 1 ∧ determine_layout 1 = (1, 1) ∧
    flexible_barplot_axes 1 = none :=
  ⟨le_refl 1, rfl, by decide⟩

/-- C10 (amended): the grid layout computed inside `flexible_barplot` is
large enough whenever the plotting loop is reached: for every
`num_axes ≥ 2`, `determine_layout` returns
`num_rows = floor (sqrt num_axes)` and `num_cols = ceil (num_axes /
num_rows)` (the least integer with `num_rows * num_cols ≥ num_axes`), these
satisfy `num_rows * num_cols ≥ num_axes`, the layout is not the failing
1×1 case, and every one of the `num_axes` bar plots is assigned its own
axis of the grid (`some true`) while each surplus axis is turned off
(`some false`).  At `num_axes = 1`, by contrast, the 1×1 layout makes
`axes.flat` raise `AttributeError` (`flexible_barplot_axes 1 = none`, see
the counterexample). -/
theorem C10_grid_layout_large_enough (n : ℕ) (hn : 2 ≤ n) :
    (determine_layout n).1 = Nat.sqrt n ∧
    n ≤ (determine_layout n).1 * (determine_layout n).2 ∧
    (determine_layout n).1 * ((determine_layout n).2 - 1) < n ∧
    (∃ g, flexible_barplot_axes n = some g ∧
      (∀ j, j < n → j < (determine_layout n).1 * (determine_layout n).2 ∧
        g[j]? = some true) ∧
      (∀ i, n ≤ i → i < (determine_layout n).1 * (determine_layout n).2 →
        g[i]? = some false)) := by
  have hr : 0 < Nat.sqrt n := Nat.sqrt_pos.mpr (by omega)
  have hcover : n ≤ Nat.sqrt n * ((n + Nat.sqrt n - 1) / Nat.sqrt n) := by
    have h2 : n + Nat.sqrt n - 1 <
        Nat.sqrt n * ((n + Nat.sqrt n - 1) / Nat.sqrt n + 1) :=
      Nat.lt_mul_div_succ _ hr
    rw [Nat.mul_add, Nat.mul_one] at h2
    omega
  have hleast : Nat.sqrt n * ((n + Nat.sqrt n - 1) / Nat.sqrt n - 1) < n := by
    have h3 : (n + Nat.sqrt n - 1) / Nat.sqrt n * Nat.sqrt n ≤
        n + Nat.sqrt n - 1 := Nat.div_mul_le_self _ _
    rw [Nat.mul_sub, Nat.mul_one, Nat.mul_comm]
    omega
  have hguard : ¬ ((determine_layout n).1 = 1 ∧ (determine_layout n).2 = 1) := by
    rintro ⟨h1, h2⟩
    have hc := hcover
    simp only [determine_layout] at h1 h2
    rw [h2, h1] at hc
    omega
  refine ⟨rfl, hcover, hleast,
    ⟨(List.range ((determine_layout n).1 * (determine_layout n).2)).map
      (fun i => decide (i < n)), ?_, fun j hj => ⟨lt_of_lt_of_le hj hcover, ?_⟩,
      fun i hni hi => ?_⟩⟩
  · simp only [flexible_barplot_axes]
    rw [if_neg hguard]
  · simp only [List.getElem?_map, List.getElem?_range, determine_layout,
      lt_of_lt_of_le hj hcover, if_true, Option.map_some']
    simp [hj]
  · simp only [List.getElem?_map, List.getElem?_range, determine_layout]
    simp only [determine_layout] at hi
    simp [hi, Nat.not_lt.mpr hni]

/-- C10 witness: at `num_axes = 5` the hypotheses hold, the layout is
2 × 3 and covers all five plots. -/
theorem C10_witness :
    (2 : ℕ) ≤ 5 ∧ 5 ≤ (determine_layout 5).1 * (determine_layout 5).2 :=
  ⟨by norm_num, (C10_grid_layout_large_enough 5 (by norm_num)).2.1⟩

end CCPM
